import Mathlib

/-!
Shallow embedding of the host-agent control plane (agent/core/database.py,
agent/core/deployment.py, agent/core/monitoring.py, agent/main.py).

Statuses, ids and reasons are the string literals the Python code uses.
Timestamps are integers (the unit is minutes, matching the comparison
`NOW() >= start_time + duration_minutes * INTERVAL one minute` in
get_expired_deployments). The relational store, the container runtime and
the outbound HTTP/log effects are folded into one explicit `World` record;
each Python coroutine becomes a pure function on `World`, returning the
error it raises (if any) alongside the final state. External outcomes of
deploy steps 3-7 (docker pull, docker run, configure, health gates) are
injected through a `DeployEnv` parameter, because they depend only on the
environment; every store update and every docker CLI invocation whose
effect the code itself determines is modelled concretely, including the
docker CLI reference rules: `docker ps --filter name=s` matches containers
whose name contains s as a substring, while `docker inspect r`,
`docker stop r`, `docker rm r` resolve r only against the exact container
name or the exact runtime id.
-/

namespace HostAgent

/-- Row of the gpu_status table for the single slot (schema in
agent/core/database.py; only the columns the modelled code reads or
writes are kept). -/
structure GpuRow where
  gpu_id : String
  status : String
  is_healthy : Bool
  current_deployment_id : Option String
  consecutive_failures : Int
  last_health_check : Option Int
  updated_at : Int
deriving DecidableEq, Repr

/-- Row of the deployments table (columns used by the modelled code). -/
structure DeploymentRow where
  deployment_id : String
  gpu_id : String
  template_type : String
  container_id : Option String
  status : String
  start_time : Int
  duration_minutes : Int
  user_id : String
  ssh_port : Int
  rental_port_1 : Int
  rental_port_2 : Int
  ssh_username : Option String
  ssh_password : Option String
  updated_at : Int
deriving DecidableEq, Repr

/-- A container known to the docker runtime: its name
(deploy_container names containers deployment-<id>), the runtime id
returned by docker run, and whether it is running. -/
structure Container where
  name : String
  cid : String
  running : Bool
deriving DecidableEq, Repr

/-- Externally visible effects, in order of occurrence: ack is the HTTP
POST of acknowledge_command; httpDeploySuccess the HTTP POST of
notify_deployment_success; logTerminated records an invocation of
notify_deployment_terminated, which in this code only logs and performs
no server call; depWrite records each UPDATE issued by
update_deployment_status (with the status it writes). -/
inductive Event
  | ack (command_id : String)
  | httpDeploySuccess (deployment_id : String)
  | logTerminated (deployment_id : Option String) (reason : String)
  | depWrite (deployment_id status : String)
deriving DecidableEq, Repr

/-- The whole observable state: the two store tables, the runtime, the
wall clock (used both as NOW() for updated_at stamps and for the expiry
comparison), and the trace of emitted effects. -/
structure World where
  gpu : Option GpuRow
  deployments : List DeploymentRow
  containers : List Container
  now : Int
  trace : List Event
deriving DecidableEq, Repr

/-- Result of a coroutine that may raise: the final state and the
message of the exception that escaped, if any. -/
structure OpResult where
  world : World
  error : Option String
deriving DecidableEq, Repr

/-- One keyword argument of update_gpu_status. A constructor carrying
`none` models passing the Python value None (`update_gpu_status` skips
it: `if value is not None`). -/
inductive GpuKwarg
  | status (v : Option String)
  | is_healthy (v : Option Bool)
  | current_deployment_id (v : Option String)
  | consecutive_failures (v : Option Int)
  | last_health_check (v : Option Int)
deriving DecidableEq, Repr

/-- Apply one kwarg to a gpu_status row; a None value adds no SET
clause, so the row is unchanged. -/
def applyGpuKwarg (row : GpuRow) : GpuKwarg → GpuRow
  | GpuKwarg.status (some v) => { row with status := v }
  | GpuKwarg.status none => row
  | GpuKwarg.is_healthy (some v) => { row with is_healthy := v }
  | GpuKwarg.is_healthy none => row
  | GpuKwarg.current_deployment_id (some v) => { row with current_deployment_id := some v }
  | GpuKwarg.current_deployment_id none => row
  | GpuKwarg.consecutive_failures (some v) => { row with consecutive_failures := v }
  | GpuKwarg.consecutive_failures none => row
  | GpuKwarg.last_health_check (some v) => { row with last_health_check := some v }
  | GpuKwarg.last_health_check none => row

/-- update_gpu_status (database.py): dynamic UPDATE of gpu_status.
updated_at = NOW() is always in the SET list; kwargs whose value is None
are skipped; errors are caught and logged, never raised. -/
def update_gpu_status (gid : String) (kwargs : List GpuKwarg) (w : World) : World :=
  { w with gpu := w.gpu.map (fun row =>
      if row.gpu_id = gid then
        kwargs.foldl applyGpuKwarg { row with updated_at := w.now }
      else row) }

/-- One keyword argument of update_deployment_status (the kwargs its
callers actually pass); a `none` payload models the Python value None,
which the function skips. -/
inductive DepKwarg
  | container_id (v : Option String)
  | ssh_username (v : Option String)
  | ssh_password (v : Option String)
deriving DecidableEq, Repr

/-- Apply one kwarg to a deployments row; a None value adds no SET
clause. -/
def applyDepKwarg (row : DeploymentRow) : DepKwarg → DeploymentRow
  | DepKwarg.container_id (some v) => { row with container_id := some v }
  | DepKwarg.container_id none => row
  | DepKwarg.ssh_username (some v) => { row with ssh_username := some v }
  | DepKwarg.ssh_username none => row
  | DepKwarg.ssh_password (some v) => { row with ssh_password := some v }
  | DepKwarg.ssh_password none => row

/-- update_deployment_status (database.py): UPDATE deployments SET
status = $2, updated_at = NOW() [, non-None kwargs] WHERE
deployment_id = $1. There is no transition check of any kind; errors are
caught and logged, never raised. The issued write is recorded on the
trace. -/
def update_deployment_status (id st : String) (kwargs : List DepKwarg) (w : World) : World :=
  { w with
    deployments := w.deployments.map (fun d =>
      if d.deployment_id = id then
        kwargs.foldl applyDepKwarg { d with status := st, updated_at := w.now }
      else d),
    trace := w.trace ++ [Event.depWrite id st] }

/-- get_gpu_status (database.py): SELECT the gpu_status row whose gpu_id
is gpu-0. -/
def get_gpu_status (w : World) : Option GpuRow :=
  match w.gpu with
  | some g => if g.gpu_id = "gpu-0" then some g else none
  | none => none

/-- Boolean test of the WHERE clause of get_expired_deployments: the JOIN
with gpu_status on gpu_id, status = running (only), and
NOW() >= start_time + duration_minutes. -/
def expiredRunning (w : World) (d : DeploymentRow) : Bool :=
  (match w.gpu with
   | some g => g.gpu_id == d.gpu_id
   | none => false)
  && d.status == "running"
  && decide (d.start_time + d.duration_minutes ≤ w.now)

/-- get_expired_deployments (database.py): the SELECT has no ORDER BY,
so rows come back in table order. -/
def get_expired_deployments (w : World) : List DeploymentRow :=
  w.deployments.filter (expiredRunning w)

/-- Whether a list of characters begins with another one. -/
def startsChars : List Char → List Char → Bool
  | [], _ => true
  | _ :: _, [] => false
  | a :: p, b :: s => (a == b) && startsChars p s

/-- Whether a list of characters occurs inside another one. -/
def insideChars (p : List Char) : List Char → Bool
  | [] => startsChars p []
  | b :: s => startsChars p (b :: s) || insideChars p s

/-- Substring test on strings, used for docker ps --filter name=pat
(docker name filters match by substring) and for the Python check
deployment_id in result.stdout. -/
def strContains (s pat : String) : Bool :=
  insideChars pat.toList s.toList

/-- Whether a docker CLI reference resolves this container: exact name
or exact runtime id. -/
def refMatch (c : Container) (r : String) : Bool :=
  c.name == r || c.cid == r

/-- docker ps -a --filter name=s followed by the check that s occurs in
the stdout listing: true when some container name contains s. -/
def psNameFilterHit (w : World) (s : String) : Bool :=
  w.containers.any (fun c => strContains c.name s)

/-- docker inspect r --format State.Running: true only when r resolves a
container that is running (an unresolvable reference prints an error, so
the stdout comparison with the word true is false). -/
def inspectRunning (w : World) (r : String) : Bool :=
  match w.containers.find? (fun c => refMatch c r) with
  | some c => c.running
  | none => false

/-- docker stop r with the return code ignored: containers resolved by r
stop running; an unresolvable reference does nothing. -/
def stopByRefQuiet (w : World) (r : String) : World :=
  { w with containers := w.containers.map (fun c =>
      if refMatch c r then { c with running := false } else c) }

/-- docker rm r with the return code ignored: containers resolved by r
disappear; an unresolvable reference does nothing. -/
def rmByRefQuiet (w : World) (r : String) : World :=
  { w with containers := w.containers.filter (fun c => !(refMatch c r)) }

/-- stop_container (deployment.py): docker stop, falling back to docker
kill without a check, so it never raises. -/
def stop_container (cid : String) (w : World) : World :=
  stopByRefQuiet w cid

/-- remove_container (deployment.py): docker rm; raises when the remove
fails (in particular when the reference resolves nothing). -/
def remove_container (cid : String) (w : World) : OpResult :=
  if w.containers.any (fun c => refMatch c cid) then
    { world := rmByRefQuiet w cid, error := none }
  else
    { world := w, error := some "Failed to remove container" }

/-- cleanup_failed_deployment (deployment.py). The docker calls
(ps/stop/rm) precede the store updates inside one try block whose except
clause only logs; runtimeFault = true models any of those subprocess
calls raising (for example a timeout), in which case the store updates
are skipped entirely. The docker stop/rm here use the bare deployment id
as the reference. The final update_gpu_status passes
current_deployment_id=None, which the kwargs filter drops. -/
def cleanup_failed_deployment (id : String) (runtimeFault : Bool) (w : World) : World :=
  if runtimeFault then w
  else
    let w1 :=
      if psNameFilterHit w id then
        rmByRefQuiet (stopByRefQuiet w id) id
      else w
    let w2 := update_deployment_status id "failed" [] w1
    update_gpu_status "gpu-0"
      [GpuKwarg.status (some "available"), GpuKwarg.current_deployment_id none] w2

/-- Outcome of the externally determined deploy steps: ok, or the first
step among 3-7 that fails (image pull, docker run, configure_container,
verify_container_health). -/
inductive DeployFault
  | ok
  | pullFail
  | runFail
  | configFail
  | gateFail
deriving DecidableEq, Repr

/-- Environment of one deploy_container run: which external step fails
(if any), whether a docker call inside cleanup_failed_deployment raises,
the runtime id docker run would assign, and the minted ssh password. -/
structure DeployEnv where
  fault : DeployFault
  runtimeFault : Bool
  container_id : String
  password : String
deriving DecidableEq, Repr

/-- Network port configuration (config.yaml fields the engine reads). -/
structure Config where
  ssh_port : Int
  rental_port_1 : Int
  rental_port_2 : Int
deriving DecidableEq, Repr

/-- Fields of a command payload the modelled code reads (a missing key
and a key mapped to None both become `none`). -/
structure Payload where
  template_id : Option String := none
  template_type : Option String := none
  duration_minutes : Option Int := none
  user_id : Option String := none
  deployment_id : Option String := none
  reason : Option String := none
deriving DecidableEq, Repr

/-- The except branch of deploy_container: run cleanup_failed_deployment
(whose own errors are swallowed) and re-raise the original exception. -/
def deployFail (id : String) (env : DeployEnv) (w : World) (msg : String) : OpResult :=
  { world := cleanup_failed_deployment id env.runtimeFault w, error := some msg }

/-- deploy_container (deployment.py). Step 1 validates the slot; step 2
inserts the deployment row in deploying (the INSERT raises on a
duplicate deployment_id) and patches the slot to busy with
current_deployment_id set; steps 3-7 are the environment-determined pull
/ run / configure / health gates, with docker run registering a running
container named deployment-<id>; step 8 patches the deployment to
running with container id and credentials; step 9 notifies the server.
Any failure goes through the except branch: cleanup, then re-raise. -/
def deploy_container (cfg : Config) (deployment_id : String) (cd : Payload)
    (env : DeployEnv) (w : World) : OpResult :=
  match get_gpu_status w with
  | none => deployFail deployment_id env w "GPU status not found"
  | some g =>
    if g.status ≠ "available" then
      deployFail deployment_id env w "GPU not available"
    else if g.is_healthy = false then
      deployFail deployment_id env w "GPU is not healthy"
    else if g.current_deployment_id.isSome then
      deployFail deployment_id env w "GPU is already in use"
    else if w.deployments.any (fun d => d.deployment_id == deployment_id) then
      deployFail deployment_id env w "duplicate deployment_id"
    else
      let row : DeploymentRow :=
        { deployment_id := deployment_id
          gpu_id := "gpu-0"
          template_type := cd.template_id.getD (cd.template_type.getD "custom")
          container_id := none
          status := "deploying"
          start_time := w.now
          duration_minutes := cd.duration_minutes.getD 60
          user_id := cd.user_id.getD "unknown"
          ssh_port := cfg.ssh_port
          rental_port_1 := cfg.rental_port_1
          rental_port_2 := cfg.rental_port_2
          ssh_username := none
          ssh_password := none
          updated_at := w.now }
      let w1 := { w with deployments := w.deployments ++ [row] }
      let w2 := update_gpu_status "gpu-0"
        [GpuKwarg.status (some "busy"),
         GpuKwarg.current_deployment_id (some deployment_id)] w1
      let w3 := { w2 with containers :=
        w2.containers ++ [{ name := "deployment-" ++ deployment_id,
                            cid := env.container_id, running := true }] }
      match env.fault with
      | DeployFault.pullFail => deployFail deployment_id env w2 "Docker pull failed"
      | DeployFault.runFail => deployFail deployment_id env w2 "Container creation failed"
      | DeployFault.configFail => deployFail deployment_id env w3 "Container configuration failed"
      | DeployFault.gateFail => deployFail deployment_id env w3 "Container health check failed"
      | DeployFault.ok =>
        let w4 := update_deployment_status deployment_id "running"
          [DepKwarg.container_id (some env.container_id),
           DepKwarg.ssh_username (some "gpu-user"),
           DepKwarg.ssh_password (some env.password)] w3
        { world := { w4 with trace := w4.trace ++ [Event.httpDeploySuccess deployment_id] },
          error := none }

/-- Tail of terminate_deployment after the container handling:
cleanup_gpu_resources touches only nvidia-smi and swallows its errors
(no store effect); then the deployment row is patched straight to
terminated (reason user_requested) or completed (any other reason) - the
UPDATE with a None deployment id matches no row; then the slot is
patched to available with the dropped current_deployment_id=None kwarg;
finally notify_deployment_terminated, which only logs. -/
def terminateRest (target : Option String) (reason : String) (w : World) : OpResult :=
  let st := if reason = "user_requested" then "terminated" else "completed"
  let w1 := match target with
    | some id => update_deployment_status id st [] w
    | none => w
  let w2 := update_gpu_status "gpu-0"
    [GpuKwarg.status (some "available"), GpuKwarg.current_deployment_id none] w1
  { world := { w2 with trace := w2.trace ++ [Event.logTerminated target reason] },
    error := none }

/-- Continuation of terminate_deployment after the docker stop and rm of
a supplied container id: a raise from remove_container propagates
(skipping the store updates), otherwise the tail runs. -/
def terminateAfterRemove (target : Option String) (reason : String) (r : OpResult) : OpResult :=
  match r.error with
  | some e => { world := r.world, error := some e }
  | none => terminateRest target reason r.world

/-- terminate_deployment (deployment.py). When container_id is not
supplied the lookup from the database is an unimplemented stub
(the code reads: if not container_id then pass), so no container is
touched; when it is supplied the container is stopped and removed (a
failing remove re-raises out of the function, skipping the store
updates). -/
def terminate_deployment (target : Option String) (container_id : Option String)
    (reason : String) (w : World) : OpResult :=
  match container_id with
  | none => terminateRest target reason w
  | some cid =>
    terminateAfterRemove target reason (remove_container cid (stop_container cid w))

/-- One iteration of the body of start_health_monitoring
(monitoring.py): store_health_check appends to gpu_health_history (a
table no modelled claim reads, so it is not carried), then
update_gpu_status with is_healthy, last_health_check = now, and
consecutive_failures = 0 when the sample is healthy, else the constant
1. `healthy` abstracts health_status == healthy. -/
def health_tick (healthy : Bool) (w : World) : World :=
  update_gpu_status "gpu-0"
    [GpuKwarg.is_healthy (some healthy),
     GpuKwarg.last_health_check (some w.now),
     GpuKwarg.consecutive_failures (some (if healthy then 0 else 1))] w

/-- One iteration of the reconcile loop body of
cleanup_orphaned_deployments (main.py) for one fetched deployment id:
docker ps -a --filter name=id (substring match); when a container is
listed, docker inspect id (exact-reference resolution) decides between
resuming monitoring (no state change) and docker rm id plus marking the
deployment failed; when nothing is listed the deployment is marked
failed directly. -/
def reconcileOne (w : World) (id : String) : World :=
  if psNameFilterHit w id then
    if inspectRunning w id then w
    else update_deployment_status id "failed" [] (rmByRefQuiet w id)
  else update_deployment_status id "failed" [] w

/-- cleanup_orphaned_deployments (main.py): the deployments to reconcile
are fetched once, via get_expired_deployments, then each is processed in
turn. -/
def cleanup_orphaned_deployments (w : World) : World :=
  (get_expired_deployments w).foldl (fun acc d => reconcileOne acc d.deployment_id) w

/-- A command as decoded from the poll response (monitoring.py):
command.get returns None for missing keys. -/
structure Command where
  command_id : Option String
  command_type : Option String
  payload : Payload
deriving DecidableEq, Repr

/-- acknowledge_command (monitoring.py): the HTTP POST to the ack
endpoint; its own errors are swallowed. -/
def acknowledge_command (command_id : String) (w : World) : World :=
  { w with trace := w.trace ++ [Event.ack command_id] }

/-- The try body of process_command (monitoring.py): dispatch on
command_type. handle_deploy_command uses command_id as deployment_id; a
deploy without a command_id dies before any store write lands (the
INSERT of a NULL deployment_id violates NOT NULL, and the subsequent
cleanup aborts on a TypeError before its own store updates), so it is
modelled as a pure dispatch failure. handle_terminate_command always
passes container_id = None and defaults reason to user_requested.
Unknown or missing command types are only logged. -/
def dispatch (cfg : Config) (cmd : Command) (env : DeployEnv) (w : World) : World :=
  match cmd.command_type with
  | some t =>
    if t = "deploy" then
      match cmd.command_id with
      | some i => (deploy_container cfg i cmd.payload env w).world
      | none => w
    else if t = "terminate" then
      (terminate_deployment cmd.payload.deployment_id none
        (cmd.payload.reason.getD "user_requested") w).world
    else w
  | none => w

/-- process_command (monitoring.py): the dispatch runs inside try/except
(all errors logged), and the finally clause acknowledges the command
whenever a command_id was extracted. -/
def process_command (cfg : Config) (cmd : Command) (env : DeployEnv) (w : World) : World :=
  let w1 := dispatch cfg cmd env w
  match cmd.command_id with
  | some i => acknowledge_command i w1
  | none => w1

/-- Status of one deployment id in the store, through find? like a
SELECT on the unique key. -/
def depStatus (w : World) (id : String) : Option String :=
  (w.deployments.find? (fun d => d.deployment_id == id)).map DeploymentRow.status

/-- Whether an event is an ack HTTP call. -/
def isAckEvent : Event → Bool
  | Event.ack _ => true
  | Event.httpDeploySuccess _ => false
  | Event.logTerminated _ _ => false
  | Event.depWrite _ _ => false

/-- Number of ack HTTP calls in a trace. -/
def ackCount (tr : List Event) : Nat :=
  (tr.filter isAckEvent).length

/-- Number of ack HTTP calls for one command id in a trace. -/
def ackCountFor (i : String) (tr : List Event) : Nat :=
  (tr.filter (fun e => e == Event.ack i)).length

/-! Concrete fixtures used by the witnesses and counterexamples. -/

/-- Port configuration of the test fixtures. -/
def cfg0 : Config :=
  { ssh_port := 22022, rental_port_1 := 40001, rental_port_2 := 40002 }

/-- A freshly registered, idle slot row. -/
def g0 : GpuRow :=
  { gpu_id := "gpu-0", status := "available", is_healthy := true,
    current_deployment_id := none, consecutive_failures := 0,
    last_health_check := none, updated_at := 0 }

/-- Empty store and runtime over the idle slot. -/
def w0 : World :=
  { gpu := some g0, deployments := [], containers := [], now := 0, trace := [] }

/-- Environment of a deploy in which every external step succeeds. -/
def envOk : DeployEnv :=
  { fault := DeployFault.ok, runtimeFault := false,
    container_id := "c1", password := "pw" }

/-- Payload with every optional key missing. -/
def pay0 : Payload := {}

/-- The deployments row of a running tenant d1 in container c1. -/
def d1row : DeploymentRow :=
  { deployment_id := "d1", gpu_id := "gpu-0", template_type := "custom",
    container_id := some "c1", status := "running", start_time := 0,
    duration_minutes := 60, user_id := "u1", ssh_port := 22022,
    rental_port_1 := 40001, rental_port_2 := 40002,
    ssh_username := some "gpu-user", ssh_password := some "pw",
    updated_at := 0 }

/-- Slot row while d1 is running. -/
def gBusy : GpuRow :=
  { g0 with status := "busy", current_deployment_id := some "d1" }

/-- World in which d1 is running in container c1 on the busy slot. -/
def wBusy : World :=
  { gpu := some gBusy, deployments := [d1row],
    containers := [{ name := "deployment-d1", cid := "c1", running := true }],
    now := 5, trace := [] }

/-- State after a fully successful deploy of d1 on the idle slot. -/
def c1w1 : World := (deploy_container cfg0 "d1" pay0 envOk w0).world

/-- Result of then terminating d1 (container id supplied, as the
duration monitor does). -/
def c1r2 : OpResult := terminate_deployment (some "d1") (some "c1") "user_requested" c1w1

/-- The deploy command for d2 arriving while the slot is busy with d1. -/
def cmdD2 : Command :=
  { command_id := some "d2", command_type := some "deploy", payload := pay0 }

/-- World after that rejected deploy command is processed. -/
def c2r : World := process_command cfg0 cmdD2 envOk wBusy

/-- Result of the terminate command path (handle_terminate_command
passes container_id = None) on the running tenant d1. -/
def c5r : OpResult := terminate_deployment (some "d1") none "user_requested" wBusy

/-- An expired deployment that is still in status deploying. -/
def e1row : DeploymentRow :=
  { d1row with
    deployment_id := "e1"
    container_id := none
    status := "deploying"
    duration_minutes := 10 }

/-- World in which e1 is long past its expiry. -/
def wC7 : World :=
  { gpu := some g0, deployments := [e1row], containers := [], now := 100, trace := [] }

/-- A deployment already in the terminal status terminated. -/
def dTermRow : DeploymentRow := { d1row with deployment_id := "t1", status := "terminated" }

/-- World holding only the terminal deployment t1. -/
def wC8 : World :=
  { gpu := some g0, deployments := [dTermRow], containers := [], now := 3, trace := [] }

/-- World for reconciliation: d5 is non-terminal (deploying), expired,
and its container is absent from the runtime. -/
def wC9 : World :=
  { gpu := some gBusy, deployments := [{ e1row with deployment_id := "d5" }],
    containers := [], now := 100, trace := [] }

/-- World for reconciliation: d6 is running and expired, and its
container deployment-d6 is present and running. -/
def wC9b : World :=
  { gpu := some { g0 with status := "busy", current_deployment_id := some "d6" },
    deployments := [{ d1row with deployment_id := "d6", container_id := some "c6" }],
    containers := [{ name := "deployment-d6", cid := "c6", running := true }],
    now := 100, trace := [] }

/-- World for the health loop with the counter at zero. -/
def wH : World :=
  { gpu := some g0, deployments := [], containers := [], now := 7, trace := [] }

/-- A command of a type the agent does not know. -/
def cmdUnknown : Command :=
  { command_id := some "x1", command_type := some "reboot", payload := pay0 }

/-- Deploy of d1 on the idle slot under a chosen fault pattern. -/
def c4run (fault : DeployFault) (rf : Bool) : OpResult :=
  deploy_container cfg0 "d1" pay0
    { fault := fault, runtimeFault := rf, container_id := "c1", password := "pw" } w0

/-! Helper lemmas about the kwarg appliers, the find? based lookups and
the ack accounting of traces. -/

theorem applyDepKwarg_deployment_id (r : DeploymentRow) (k : DepKwarg) :
    (applyDepKwarg r k).deployment_id = r.deployment_id := by
  cases k with
  | container_id v => cases v <;> rfl
  | ssh_username v => cases v <;> rfl
  | ssh_password v => cases v <;> rfl

theorem applyDepKwarg_status (r : DeploymentRow) (k : DepKwarg) :
    (applyDepKwarg r k).status = r.status := by
  cases k with
  | container_id v => cases v <;> rfl
  | ssh_username v => cases v <;> rfl
  | ssh_password v => cases v <;> rfl

theorem foldl_applyDepKwarg_deployment_id (kw : List DepKwarg) (r : DeploymentRow) :
    (kw.foldl applyDepKwarg r).deployment_id = r.deployment_id := by
  induction kw generalizing r with
  | nil => rfl
  | cons k kw ih => rw [List.foldl_cons, ih, applyDepKwarg_deployment_id]

theorem foldl_applyDepKwarg_status (kw : List DepKwarg) (r : DeploymentRow) :
    (kw.foldl applyDepKwarg r).status = r.status := by
  induction kw generalizing r with
  | nil => rfl
  | cons k kw ih => rw [List.foldl_cons, ih, applyDepKwarg_status]

theorem applyGpuKwarg_keeps_cdi (r : GpuRow) (k : GpuKwarg)
    (h : r.current_deployment_id.isSome = true) :
    ((applyGpuKwarg r k).current_deployment_id).isSome = true := by
  cases k with
  | status v => cases v <;> exact h
  | is_healthy v => cases v <;> exact h
  | current_deployment_id v =>
    cases v with
    | none => exact h
    | some x => rfl
  | consecutive_failures v => cases v <;> exact h
  | last_health_check v => cases v <;> exact h

theorem foldl_applyGpuKwarg_keeps_cdi (kw : List GpuKwarg) (r : GpuRow)
    (h : r.current_deployment_id.isSome = true) :
    ((kw.foldl applyGpuKwarg r).current_deployment_id).isSome = true := by
  induction kw generalizing r with
  | nil => exact h
  | cons k kw ih => exact ih _ (applyGpuKwarg_keeps_cdi r k h)

theorem find?_updRows (l : List DeploymentRow) (id st : String) (kw : List DepKwarg) (n : Int) :
    (l.map (fun d => if d.deployment_id = id then
        kw.foldl applyDepKwarg { d with status := st, updated_at := n } else d)).find?
      (fun d => d.deployment_id == id)
    = (l.find? (fun d => d.deployment_id == id)).map
        (fun d => kw.foldl applyDepKwarg { d with status := st, updated_at := n }) := by
  induction l with
  | nil => rfl
  | cons a l ih =>
    by_cases h : a.deployment_id = id
    · simp [List.find?_cons, h, foldl_applyDepKwarg_deployment_id]
    · simp [List.find?_cons, h, ih]

theorem find?_updRows_other (l : List DeploymentRow) (id id' st : String)
    (kw : List DepKwarg) (n : Int) (hne : id' ≠ id) :
    (l.map (fun d => if d.deployment_id = id then
        kw.foldl applyDepKwarg { d with status := st, updated_at := n } else d)).find?
      (fun d => d.deployment_id == id')
    = l.find? (fun d => d.deployment_id == id') := by
  induction l with
  | nil => rfl
  | cons a l ih =>
    by_cases h : a.deployment_id = id
    · have hne2 : ¬ (a.deployment_id = id') := by
        rw [h]; exact fun hc => hne hc.symm
      have hb : (id == id') = false := beq_eq_false_iff_ne.mpr (Ne.symm hne)
      simp [List.find?_cons, h, hne2, foldl_applyDepKwarg_deployment_id, hb, ih]
    · simp [List.find?_cons, h, ih]

theorem depStatus_update_self (w : World) (id st : String) (kw : List DepKwarg) :
    depStatus (update_deployment_status id st kw w) id =
      (depStatus w id).map (fun _ => st) := by
  unfold depStatus update_deployment_status
  rw [show (({ w with
      deployments := w.deployments.map (fun d => if d.deployment_id = id then
        kw.foldl applyDepKwarg { d with status := st, updated_at := w.now } else d),
      trace := w.trace ++ [Event.depWrite id st] } : World)).deployments
    = w.deployments.map (fun d => if d.deployment_id = id then
        kw.foldl applyDepKwarg { d with status := st, updated_at := w.now } else d) from rfl]
  rw [find?_updRows]
  cases w.deployments.find? (fun d => d.deployment_id == id) with
  | none => rfl
  | some d => simp [foldl_applyDepKwarg_status]

theorem depStatus_update_other (w : World) (id id' st : String) (kw : List DepKwarg)
    (hne : id' ≠ id) :
    depStatus (update_deployment_status id st kw w) id' = depStatus w id' := by
  unfold depStatus update_deployment_status
  rw [show (({ w with
      deployments := w.deployments.map (fun d => if d.deployment_id = id then
        kw.foldl applyDepKwarg { d with status := st, updated_at := w.now } else d),
      trace := w.trace ++ [Event.depWrite id st] } : World)).deployments
    = w.deployments.map (fun d => if d.deployment_id = id then
        kw.foldl applyDepKwarg { d with status := st, updated_at := w.now } else d) from rfl]
  rw [find?_updRows_other _ _ _ _ _ _ hne]

theorem ackCount_nil : ackCount [] = 0 := rfl

theorem ackCount_append (t1 t2 : List Event) :
    ackCount (t1 ++ t2) = ackCount t1 + ackCount t2 := by
  simp [ackCount, List.filter_append]

theorem ackCount_cons_depWrite (i s : String) (t : List Event) :
    ackCount (Event.depWrite i s :: t) = ackCount t := by
  simp [ackCount, List.filter_cons, isAckEvent]

theorem ackCount_cons_http (i : String) (t : List Event) :
    ackCount (Event.httpDeploySuccess i :: t) = ackCount t := by
  simp [ackCount, List.filter_cons, isAckEvent]

theorem ackCount_cons_log (o : Option String) (r : String) (t : List Event) :
    ackCount (Event.logTerminated o r :: t) = ackCount t := by
  simp [ackCount, List.filter_cons, isAckEvent]

theorem ackCount_cons_ack (i : String) (t : List Event) :
    ackCount (Event.ack i :: t) = ackCount t + 1 := by
  simp [ackCount, List.filter_cons, isAckEvent]

theorem ackCountFor_nil (j : String) : ackCountFor j [] = 0 := rfl

theorem ackCountFor_append (j : String) (t1 t2 : List Event) :
    ackCountFor j (t1 ++ t2) = ackCountFor j t1 + ackCountFor j t2 := by
  simp [ackCountFor, List.filter_append]

theorem ackCountFor_cons_depWrite (j i s : String) (t : List Event) :
    ackCountFor j (Event.depWrite i s :: t) = ackCountFor j t := by
  simp [ackCountFor, List.filter_cons]

theorem ackCountFor_cons_http (j i : String) (t : List Event) :
    ackCountFor j (Event.httpDeploySuccess i :: t) = ackCountFor j t := by
  simp [ackCountFor, List.filter_cons]

theorem ackCountFor_cons_log (j : String) (o : Option String) (r : String) (t : List Event) :
    ackCountFor j (Event.logTerminated o r :: t) = ackCountFor j t := by
  simp [ackCountFor, List.filter_cons]

theorem ackCountFor_cons_ack (j i : String) (t : List Event) :
    ackCountFor j (Event.ack i :: t) = ackCountFor j t + (if i = j then 1 else 0) := by
  by_cases h : i = j
  · subst h; simp [ackCountFor, List.filter_cons]
  · simp [ackCountFor, List.filter_cons, h]

theorem trace_cleanup (id : String) (rf : Bool) (w : World) :
    (cleanup_failed_deployment id rf w).trace =
      if rf then w.trace else w.trace ++ [Event.depWrite id "failed"] := by
  by_cases h : rf
  · simp [cleanup_failed_deployment, h]
  · by_cases h2 : psNameFilterHit w id <;>
      simp [cleanup_failed_deployment, h, h2, update_gpu_status,
        update_deployment_status, rmByRefQuiet, stopByRefQuiet]

theorem trace_deploy (cfg : Config) (id : String) (cd : Payload) (env : DeployEnv)
    (w : World) :
    ∃ t : List Event, (deploy_container cfg id cd env w).world.trace = w.trace ++ t ∧
      ackCount t = 0 ∧ (∀ j : String, ackCountFor j t = 0) := by
  have hfail : ∀ w' : World, w'.trace = w.trace → ∀ m : String,
      ∃ t : List Event, (deployFail id env w' m).world.trace = w.trace ++ t ∧
        ackCount t = 0 ∧ (∀ j : String, ackCountFor j t = 0) := by
    intro w' hw m
    by_cases h : env.runtimeFault
    · exact ⟨[], by simp [deployFail, trace_cleanup, h, hw], rfl, fun j => rfl⟩
    · refine ⟨[Event.depWrite id "failed"], by simp [deployFail, trace_cleanup, h, hw], ?_, ?_⟩
      · simp [ackCount_cons_depWrite, ackCount_nil]
      · intro j; simp [ackCountFor_cons_depWrite, ackCountFor_nil]
  unfold deploy_container
  repeat' split
  all_goals first
    | exact hfail _ (by rfl) _
    | (refine ⟨[Event.depWrite id "running", Event.httpDeploySuccess id], ?_, ?_, ?_⟩
       · simp [update_deployment_status, update_gpu_status]
       · simp [ackCount_cons_depWrite, ackCount_cons_http, ackCount_nil]
       · intro j
         simp [ackCountFor_cons_depWrite, ackCountFor_cons_http, ackCountFor_nil])

theorem trace_remove (c : String) (w : World) :
    (remove_container c w).world.trace = w.trace := by
  unfold remove_container
  split <;> rfl

theorem terminate_deployment_none (target : Option String) (reason : String) (w : World) :
    terminate_deployment target none reason w = terminateRest target reason w := rfl

theorem terminate_deployment_some (target : Option String) (c reason : String) (w : World) :
    terminate_deployment target (some c) reason w =
      terminateAfterRemove target reason (remove_container c (stop_container c w)) := rfl

theorem trace_terminate (target : Option String) (cid : Option String) (reason : String)
    (w : World) :
    ∃ t : List Event, (terminate_deployment target cid reason w).world.trace = w.trace ++ t ∧
      ackCount t = 0 ∧ (∀ j : String, ackCountFor j t = 0) := by
  have hrest : ∀ w' : World, w'.trace = w.trace →
      ∃ t : List Event, (terminateRest target reason w').world.trace = w.trace ++ t ∧
        ackCount t = 0 ∧ (∀ j : String, ackCountFor j t = 0) := by
    intro w' hw
    cases target with
    | some id =>
      refine ⟨[Event.depWrite id (if reason = "user_requested" then "terminated" else "completed"),
        Event.logTerminated (some id) reason], ?_, ?_, ?_⟩
      · simp [terminateRest, update_gpu_status, update_deployment_status, hw]
      · simp [ackCount_cons_depWrite, ackCount_cons_log, ackCount_nil]
      · intro j; simp [ackCountFor_cons_depWrite, ackCountFor_cons_log, ackCountFor_nil]
    | none =>
      refine ⟨[Event.logTerminated none reason], ?_, ?_, ?_⟩
      · simp [terminateRest, update_gpu_status, hw]
      · simp [ackCount_cons_log, ackCount_nil]
      · intro j; simp [ackCountFor_cons_log, ackCountFor_nil]
  cases cid with
  | none => exact hrest w rfl
  | some c =>
    rw [terminate_deployment_some]
    have htr : (remove_container c (stop_container c w)).world.trace = w.trace := by
      rw [trace_remove]; rfl
    rcases hr : remove_container c (stop_container c w) with ⟨w2, er⟩
    have hw2 : w2.trace = w.trace := by rw [hr] at htr; exact htr
    cases er with
    | some e => exact ⟨[], by simp [terminateAfterRemove, hw2], rfl, fun j => rfl⟩
    | none => exact hrest w2 hw2

theorem gpu_release (w : World) (g : GpuRow) (hg : w.gpu = some g)
    (hgid : g.gpu_id = "gpu-0") :
    (update_gpu_status "gpu-0"
        [GpuKwarg.status (some "available"), GpuKwarg.current_deployment_id none] w).gpu
      = some { g with status := "available", updated_at := w.now } := by
  simp [update_gpu_status, hg, hgid, applyGpuKwarg]

theorem refMatch_stopped (c : Container) (r : String) :
    refMatch { c with running := false } r = refMatch c r := rfl

theorem any_refMatch_stop (l : List Container) (r : String) :
    ((l.map (fun c => if refMatch c r = true then { c with running := false } else c)).any
        (fun c => refMatch c r))
      = l.any (fun c => refMatch c r) := by
  induction l with
  | nil => rfl
  | cons c l ih =>
    by_cases h : refMatch c r = true <;>
      simp [h, refMatch_stopped, ih]

theorem filter_refMatch_stop (l : List Container) (r : String) :
    ((l.map (fun c => if refMatch c r = true then { c with running := false } else c)).filter
        (fun c => !(refMatch c r)))
      = l.filter (fun c => !(refMatch c r)) := by
  induction l with
  | nil => rfl
  | cons c l ih =>
    by_cases h : refMatch c r = true <;>
      simp [List.filter_cons, h, refMatch_stopped, ih]

theorem reconcileOne_gpu (w : World) (id : String) :
    (reconcileOne w id).gpu = w.gpu := by
  unfold reconcileOne
  split
  · split
    · rfl
    · rfl
  · rfl

theorem reconcileOne_depStatus_other (w : World) (id id' : String) (h : id' ≠ id) :
    depStatus (reconcileOne w id) id' = depStatus w id' := by
  unfold reconcileOne
  split
  · split
    · rfl
    · rw [depStatus_update_other _ _ _ _ _ h]; rfl
  · rw [depStatus_update_other _ _ _ _ _ h]

theorem foldRecon_gpu (ds : List DeploymentRow) (w : World) :
    (ds.foldl (fun acc d => reconcileOne acc d.deployment_id) w).gpu = w.gpu := by
  induction ds generalizing w with
  | nil => rfl
  | cons d ds ih => rw [List.foldl_cons, ih, reconcileOne_gpu]

theorem foldRecon_depStatus (ds : List DeploymentRow) (w : World) (id' : String)
    (h : ∀ x ∈ ds, x.deployment_id ≠ id') :
    depStatus (ds.foldl (fun acc d => reconcileOne acc d.deployment_id) w) id'
      = depStatus w id' := by
  induction ds generalizing w with
  | nil => rfl
  | cons d ds ih =>
    rw [List.foldl_cons, ih _ (fun x hx => h x (List.mem_cons_of_mem _ hx)),
      reconcileOne_depStatus_other _ _ _
        (fun hc : id' = d.deployment_id => h d (List.mem_cons_self _ _) hc.symm)]

theorem trace_dispatch (cfg : Config) (cmd : Command) (env : DeployEnv) (w : World) :
    ∃ t : List Event, (dispatch cfg cmd env w).trace = w.trace ++ t ∧
      ackCount t = 0 ∧ (∀ j : String, ackCountFor j t = 0) := by
  unfold dispatch
  repeat' split
  all_goals first
    | exact trace_deploy _ _ _ _ _
    | exact trace_terminate _ _ _ _
    | exact ⟨[], by simp, rfl, fun j => rfl⟩

/-- C1: the spec invariant status=busy iff current_deployment_id is
non-null is broken by the code. After a successful deploy of d1
followed by its termination, the slot row has status available while
current_deployment_id is still d1: update_gpu_status drops the
current_deployment_id=None keyword argument, so the release never
clears the pointer, and every later deploy is rejected with GPU is
already in use. -/
theorem c1_busy_iff_deployment_violated :
    (deploy_container cfg0 "d1" pay0 envOk w0).error = none ∧
    c1r2.error = none ∧
    c1r2.world.gpu.map GpuRow.status = some "available" ∧
    c1r2.world.gpu.map GpuRow.current_deployment_id = some (some "d1") ∧
    ¬ ((c1r2.world.gpu.map GpuRow.status = some "busy") ↔
        (c1r2.world.gpu.map GpuRow.current_deployment_id ≠ some none)) ∧
    (deploy_container cfg0 "d2" pay0 envOk c1r2.world).error.isSome = true := by
  decide

/-- C2: a deploy command arriving while the slot is busy is rejected
and acknowledged, and the deployments table is untouched, but the
gpu_status row is mutated: the blanket except branch of
deploy_container runs cleanup_failed_deployment even for the
precondition failure, which flips the busy slot to available while the
running tenant d1 still occupies it. -/
theorem c2_rejected_deploy_mutates_slot :
    ackCount c2r.trace = 1 ∧
    c2r.deployments = wBusy.deployments ∧
    c2r.containers = wBusy.containers ∧
    gBusy.status = "busy" ∧
    c2r.gpu.map GpuRow.status = some "available" := by
  decide

/-- C5 counterexample: terminating the running tenant d1 through the
terminate-command path (no container id supplied) leaves its running
container untouched (the database lookup is a stub), never issues a
patch to terminating, and writes the deployment straight to
terminated. -/
theorem c5_counterexample_no_lookup_no_terminating :
    c5r.error = none ∧
    c5r.world.containers = wBusy.containers ∧
    (∀ e ∈ c5r.world.trace, e ≠ Event.depWrite "d1" "terminating") ∧
    depStatus c5r.world "d1" = some "terminated" := by
  decide

/-- C7 counterexample: e1 is expired (start+duration is at or before
now) and its status deploying is in the set the claim includes, yet
get_expired_deployments returns nothing, because the query filters on
status = running only. -/
theorem c7_counterexample_deploying_excluded :
    e1row.status = "deploying" ∧
    e1row.start_time + e1row.duration_minutes ≤ wC7.now ∧
    get_expired_deployments wC7 = [] := by
  decide

/-- C8 counterexample: updating the terminal deployment t1 to running
succeeds; update_deployment_status performs no transition check. -/
theorem c8_counterexample_terminal_overwritten :
    depStatus wC8 "t1" = some "terminated" ∧
    depStatus (update_deployment_status "t1" "running" [] wC8) "t1" = some "running" := by
  decide

/-- C9 counterexample: the non-terminal deployment d5 has no container
on the runtime, so the claim says startup reconciliation marks it
failed; but the reconciliation iterates over get_expired_deployments
(status running only), so d5 is never examined and the whole pass is a
no-op. -/
theorem c9_counterexample_deploying_not_reconciled :
    depStatus wC9 "d5" = some "deploying" ∧
    cleanup_orphaned_deployments wC9 = wC9 ∧
    depStatus (cleanup_orphaned_deployments wC9) "d5" = some "deploying" := by
  decide

/-- C3: every command that carries a command_id is acknowledged exactly
once per processing, on every exit path: whatever the command type
(deploy, terminate, unknown or missing) and whatever the dispatch
outcome (any deploy fault pattern, any terminate outcome), exactly one
ack HTTP call is appended, and it is for that command_id only - the
finally clause of process_command issues it unconditionally. -/
theorem c3_ack_exactly_once (cfg : Config) (cmd : Command) (env : DeployEnv) (w : World)
    (i : String) (h : cmd.command_id = some i) :
    ackCount (process_command cfg cmd env w).trace = ackCount w.trace + 1 ∧
    (∀ j : String, ackCountFor j (process_command cfg cmd env w).trace =
      ackCountFor j w.trace + (if i = j then 1 else 0)) := by
  obtain ⟨t, ht, hc, hcf⟩ := trace_dispatch cfg cmd env w
  have hp : (process_command cfg cmd env w).trace =
      (dispatch cfg cmd env w).trace ++ [Event.ack i] := by
    unfold process_command acknowledge_command
    rw [h]
  constructor
  · simp [hp, ht, ackCount_append, ackCount_cons_ack, ackCount_nil, hc]
  · intro j
    simp [hp, ht, ackCountFor_append, ackCountFor_cons_ack, ackCountFor_nil, hcf j]

/-- C3 witness: a concrete command of unknown type with id x1 is
acknowledged exactly once when processed over the empty-store world. -/
theorem c3_ack_exactly_once_witness :
    ackCount (process_command cfg0 cmdUnknown envOk w0).trace = ackCount w0.trace + 1 ∧
    ackCountFor "x1" (process_command cfg0 cmdUnknown envOk w0).trace =
      ackCountFor "x1" w0.trace + 1 := by
  have h := c3_ack_exactly_once cfg0 cmdUnknown envOk w0 "x1" rfl
  exact ⟨h.1, by simpa using h.2 "x1"⟩

/-- C10 counterexample: two consecutive unhealthy samples starting from
a zero counter leave consecutive_failures at 1, not at the previous
value plus one (the code writes the constant 1, never an increment). -/
theorem c10_counterexample_no_increment :
    (health_tick false wH).gpu.map GpuRow.consecutive_failures = some 1 ∧
    (health_tick false (health_tick false wH)).gpu.map GpuRow.consecutive_failures = some 1 ∧
    (health_tick false (health_tick false wH)).gpu.map GpuRow.consecutive_failures ≠
      some (1 + 1) := by
  decide

/-- C4 counterexample: a deploy of d1 that fails at the health gate runs
compensation, yet the slot keeps current_deployment_id = d1 (the claim
says it is released to none) and the created container deployment-d1 is
still present and running (the claim says it is stopped and removed;
the cleanup references it by the bare deployment id, which resolves
nothing). -/
theorem c4_counterexample_slot_not_released :
    (c4run DeployFault.gateFail false).error.isSome = true ∧
    (c4run DeployFault.gateFail false).world.gpu.map GpuRow.status = some "available" ∧
    (c4run DeployFault.gateFail false).world.gpu.map GpuRow.current_deployment_id
      = some (some "d1") ∧
    (c4run DeployFault.gateFail false).world.containers
      = [{ name := "deployment-d1", cid := "c1", running := true }] := by
  decide

/-- C4 amended: for a deploy of d1 failing at any of steps 3-7, when no
docker call inside cleanup raises, compensation patches the deployment
to failed (without a reason), sets the slot status to available while
leaving current_deployment_id pointing at d1, and leaves any created
container behind (still running); when a docker call inside cleanup
raises, every store update of the compensation is skipped (the row
stays deploying and the slot stays busy), though the error is still
re-raised. -/
theorem c4_amended_cleanup_behavior (fault : DeployFault) (rf : Bool)
    (hf : fault ≠ DeployFault.ok) :
    (c4run fault rf).error.isSome = true ∧
    (rf = false →
      depStatus (c4run fault rf).world "d1" = some "failed" ∧
      (c4run fault rf).world.gpu.map GpuRow.status = some "available" ∧
      (c4run fault rf).world.gpu.map GpuRow.current_deployment_id = some (some "d1") ∧
      ((fault = DeployFault.configFail ∨ fault = DeployFault.gateFail) →
        (c4run fault rf).world.containers
          = [{ name := "deployment-d1", cid := "c1", running := true }]) ∧
      ((fault = DeployFault.pullFail ∨ fault = DeployFault.runFail) →
        (c4run fault rf).world.containers = [])) ∧
    (rf = true →
      depStatus (c4run fault rf).world "d1" = some "deploying" ∧
      (c4run fault rf).world.gpu.map GpuRow.status = some "busy" ∧
      (c4run fault rf).world.gpu.map GpuRow.current_deployment_id = some (some "d1")) := by
  cases fault with
  | ok => exact absurd rfl hf
  | pullFail => cases rf <;> decide
  | runFail => cases rf <;> decide
  | configFail => cases rf <;> decide
  | gateFail => cases rf <;> decide

/-- C4 witness: the amended statement applied to the pull failure with a
raising docker call inside cleanup. -/
theorem c4_amended_cleanup_behavior_witness :
    (c4run DeployFault.pullFail true).error.isSome = true ∧
    depStatus (c4run DeployFault.pullFail true).world "d1" = some "deploying" := by
  have h := c4_amended_cleanup_behavior DeployFault.pullFail true (by decide)
  exact ⟨h.1, (h.2.2 rfl).1⟩

/-- C5 amended: terminate_deployment never patches to terminating and
performs no container lookup when no container id is supplied (the
containers are untouched); it patches the deployment unconditionally -
whatever its current status - straight to terminated (reason
user_requested) or completed (any other reason); it then sets the slot
status to available (current_deployment_id stays as it was) and invokes
the termination-notification routine, which in this code only logs and
sends nothing to the server; when a container id that resolves a
container is supplied, that container is stopped and removed. -/
theorem c5_amended_terminate_behavior (w : World) (id reason : String) (g : GpuRow)
    (hg : w.gpu = some g) (hgid : g.gpu_id = "gpu-0")
    (hd : (depStatus w id).isSome = true) :
    (terminate_deployment (some id) none reason w).error = none ∧
    (terminate_deployment (some id) none reason w).world.containers = w.containers ∧
    depStatus (terminate_deployment (some id) none reason w).world id
      = some (if reason = "user_requested" then "terminated" else "completed") ∧
    (terminate_deployment (some id) none reason w).world.gpu
      = some { g with status := "available", updated_at := w.now } ∧
    Event.logTerminated (some id) reason ∈
      (terminate_deployment (some id) none reason w).world.trace ∧
    (∀ e ∈ ((terminate_deployment (some id) none reason w).world.trace).drop
        w.trace.length, e ≠ Event.depWrite id "terminating") ∧
    (∀ cid : String, (w.containers.any fun c => refMatch c cid) = true →
      (terminate_deployment (some id) (some cid) reason w).world.containers
        = w.containers.filter (fun c => !(refMatch c cid)) ∧
      (terminate_deployment (some id) (some cid) reason w).error = none) := by
  have hst : depStatus (terminate_deployment (some id) none reason w).world id
      = (depStatus w id).map
          (fun _ => if reason = "user_requested" then "terminated" else "completed") :=
    depStatus_update_self w id _ []
  have ht : (terminate_deployment (some id) none reason w).world.trace
      = w.trace ++ [Event.depWrite id
          (if reason = "user_requested" then "terminated" else "completed"),
          Event.logTerminated (some id) reason] := by
    show (w.trace ++ [Event.depWrite id
        (if reason = "user_requested" then "terminated" else "completed")])
        ++ [Event.logTerminated (some id) reason] = _
    simp
  refine ⟨rfl, rfl, ?_, ?_, ?_, ?_, ?_⟩
  · rw [hst]
    obtain ⟨s0, hs0⟩ := Option.isSome_iff_exists.mp hd
    rw [hs0]
    rfl
  · exact gpu_release
      (update_deployment_status id
        (if reason = "user_requested" then "terminated" else "completed") [] w) g hg hgid
  · rw [ht]
    simp
  · intro e he
    rw [ht, List.drop_left] at he
    simp only [List.mem_cons, List.mem_singleton, List.not_mem_nil, or_false] at he
    rcases he with he | he
    · subst he
      by_cases hr : reason = "user_requested" <;> simp [hr]
    · subst he
      simp
  · intro cid hany
    have hstep : remove_container cid (stop_container cid w)
        = { world := rmByRefQuiet (stop_container cid w) cid, error := none } := by
      unfold remove_container
      rw [if_pos]
      show (List.any _ _) = true
      rw [show (stop_container cid w).containers
          = w.containers.map
              (fun c => if refMatch c cid = true then { c with running := false } else c)
        from rfl]
      rw [any_refMatch_stop]
      exact hany
    have hred : terminate_deployment (some id) (some cid) reason w
        = terminateRest (some id) reason (rmByRefQuiet (stop_container cid w) cid) := by
      rw [terminate_deployment_some, hstep]
      rfl
    constructor
    · rw [hred]
      show (rmByRefQuiet (stop_container cid w) cid).containers = _
      rw [show (rmByRefQuiet (stop_container cid w) cid).containers
          = ((stop_container cid w).containers).filter (fun c => !(refMatch c cid))
        from rfl]
      exact filter_refMatch_stop w.containers cid
    · rw [hred]
      rfl

/-- C5 witness: the amended statement applied to the running tenant d1
over the busy-slot world. -/
theorem c5_amended_terminate_behavior_witness :
    depStatus (terminate_deployment (some "d1") none "user_requested" wBusy).world "d1"
      = some "terminated" ∧
    (terminate_deployment (some "d1") none "user_requested" wBusy).world.gpu
      = some { gBusy with status := "available", updated_at := wBusy.now } := by
  have h := c5_amended_terminate_behavior wBusy "d1" "user_requested" gBusy rfl rfl
    (by decide)
  exact ⟨by simpa using h.2.2.1, h.2.2.2.1⟩

/-- C6: both dynamic update helpers drop every keyword argument whose
value is None: each None-valued kwarg constructor is the identity on the
row; no kwarg list can turn a set current_deployment_id into NULL; and
the concrete release call made by terminate_deployment and
cleanup_failed_deployment changes exactly status and updated_at of the
gpu-0 row, leaving current_deployment_id at its previous value. -/
theorem c6_none_kwargs_dropped (w : World) (g : GpuRow)
    (hg : w.gpu = some g) (hgid : g.gpu_id = "gpu-0") :
    update_gpu_status "gpu-0"
        [GpuKwarg.status (some "available"), GpuKwarg.current_deployment_id none] w
      = { w with gpu := some { g with status := "available", updated_at := w.now } } ∧
    (∀ (gid : String) (kws : List GpuKwarg) (g' : GpuRow),
      g.current_deployment_id.isSome = true →
      (update_gpu_status gid kws w).gpu = some g' →
      g'.current_deployment_id.isSome = true) ∧
    (∀ r : GpuRow,
      applyGpuKwarg r (GpuKwarg.status none) = r ∧
      applyGpuKwarg r (GpuKwarg.is_healthy none) = r ∧
      applyGpuKwarg r (GpuKwarg.current_deployment_id none) = r ∧
      applyGpuKwarg r (GpuKwarg.consecutive_failures none) = r ∧
      applyGpuKwarg r (GpuKwarg.last_health_check none) = r) ∧
    (∀ r : DeploymentRow,
      applyDepKwarg r (DepKwarg.container_id none) = r ∧
      applyDepKwarg r (DepKwarg.ssh_username none) = r ∧
      applyDepKwarg r (DepKwarg.ssh_password none) = r) := by
  refine ⟨?_, ?_, fun r => ⟨rfl, rfl, rfl, rfl, rfl⟩, fun r => ⟨rfl, rfl, rfl⟩⟩
  · simp [update_gpu_status, hg, hgid, applyGpuKwarg]
  · intro gid kws g' hsome hup
    rw [update_gpu_status] at hup
    simp only [hg, Option.map_some'] at hup
    by_cases h : g.gpu_id = gid
    · rw [if_pos h] at hup
      obtain rfl := (Option.some.injEq _ _).mp hup
      exact foldl_applyGpuKwarg_keeps_cdi kws _ hsome
    · rw [if_neg h] at hup
      obtain rfl := (Option.some.injEq _ _).mp hup
      exact hsome

/-- C6 witness: the release call on the busy-slot world keeps the
pointer to d1. -/
theorem c6_none_kwargs_dropped_witness :
    update_gpu_status "gpu-0"
        [GpuKwarg.status (some "available"), GpuKwarg.current_deployment_id none] wBusy
      = { wBusy with gpu := some { gBusy with status := "available", updated_at := wBusy.now } } :=
  (c6_none_kwargs_dropped wBusy gBusy rfl rfl).1

/-- C7 amended: get_expired_deployments returns exactly the deployments
with a gpu_status row of matching gpu_id, status running (deploying rows
are never returned), and start_time plus duration_minutes at or before
now; the result is in table order (a sublist of the table), with no
ordering by expiry applied. -/
theorem c7_amended_membership (w : World) (d : DeploymentRow) :
    (d ∈ get_expired_deployments w ↔
      d ∈ w.deployments ∧ (∃ g, w.gpu = some g ∧ g.gpu_id = d.gpu_id) ∧
      d.status = "running" ∧ d.start_time + d.duration_minutes ≤ w.now) ∧
    List.Sublist (get_expired_deployments w) w.deployments := by
  constructor
  · rw [get_expired_deployments, List.mem_filter]
    cases hgw : w.gpu with
    | none => simp [expiredRunning, hgw]
    | some g => simp [expiredRunning, hgw, and_assoc]
  · exact List.filter_sublist _

/-- C7 witness: the amended membership test applied to the expired
deploying row e1. -/
theorem c7_amended_membership_witness :
    (e1row ∈ get_expired_deployments wC7 ↔
      e1row ∈ wC7.deployments ∧ (∃ g, wC7.gpu = some g ∧ g.gpu_id = e1row.gpu_id) ∧
      e1row.status = "running" ∧ e1row.start_time + e1row.duration_minutes ≤ wC7.now) ∧
    List.Sublist (get_expired_deployments wC7) wC7.deployments :=
  c7_amended_membership wC7 e1row

/-- C8 amended: update_deployment_status performs no transition
validation: for any current contents of the store it overwrites the
status of every row matching the deployment id - including rows already
in a terminal state - with the requested status. -/
theorem c8_amended_no_transition_check (w : World) (id st : String) (kw : List DepKwarg) :
    (∀ d' ∈ (update_deployment_status id st kw w).deployments,
      d'.deployment_id = id → d'.status = st) ∧
    (∀ d ∈ w.deployments, d.deployment_id = id →
      ∃ d', d' ∈ (update_deployment_status id st kw w).deployments ∧
        d'.deployment_id = id ∧ d'.status = st) := by
  constructor
  · intro d' hd' hid
    simp only [update_deployment_status, List.mem_map] at hd'
    obtain ⟨d, hd, hfd⟩ := hd'
    by_cases h : d.deployment_id = id
    · rw [← hfd, if_pos h, foldl_applyDepKwarg_status]
    · rw [← hfd, if_neg h] at hid
      exact absurd hid h
  · intro d hd hid
    refine ⟨kw.foldl applyDepKwarg { d with status := st, updated_at := w.now }, ?_, ?_, ?_⟩
    · simp only [update_deployment_status, List.mem_map]
      exact ⟨d, hd, by rw [if_pos hid]⟩
    · rw [foldl_applyDepKwarg_deployment_id]
      exact hid
    · rw [foldl_applyDepKwarg_status]

/-- C8 witness: the amended statement applied to the terminal deployment
t1, overwritten to running. -/
theorem c8_amended_no_transition_check_witness :
    ∃ d', d' ∈ (update_deployment_status "t1" "running" [] wC8).deployments ∧
      d'.deployment_id = "t1" ∧ d'.status = "running" :=
  (c8_amended_no_transition_check wC8 "t1" "running" []).2 dTermRow (by decide) rfl

/-- C9 amended: startup reconciliation never touches the gpu_status row
(the slot is never released); every deployment whose id is not among the
fetched expired running rows keeps its status (in particular every
deploying row and every unexpired running row); and on the concrete
world where the expired running deployment d6 has its container
deployment-d6 present and running, reconciliation still marks d6 failed
(the docker inspect of the bare id resolves nothing) and removes no
container. -/
theorem c9_amended_reconcile_behavior (w : World) (id' : String)
    (hfresh : ∀ x ∈ get_expired_deployments w, x.deployment_id ≠ id') :
    (cleanup_orphaned_deployments w).gpu = w.gpu ∧
    depStatus (cleanup_orphaned_deployments w) id' = depStatus w id' ∧
    depStatus (cleanup_orphaned_deployments wC9b) "d6" = some "failed" ∧
    (cleanup_orphaned_deployments wC9b).containers = wC9b.containers ∧
    (cleanup_orphaned_deployments wC9b).gpu = wC9b.gpu := by
  refine ⟨?_, ?_, by decide, by decide, by decide⟩
  · exact foldRecon_gpu _ _
  · exact foldRecon_depStatus _ _ _ hfresh

/-- C9 witness: the amended statement applied to the world holding the
expired deploying row d5. -/
theorem c9_amended_reconcile_behavior_witness :
    depStatus (cleanup_orphaned_deployments wC9) "d5" = depStatus wC9 "d5" :=
  (c9_amended_reconcile_behavior wC9 "d5" (by decide)).2.1

/-- C10 amended: the health loop writes consecutive_failures as 0 on a
healthy sample and as the constant 1 (not previous plus one) otherwise;
the stored counter therefore never exceeds 1, and when it strictly
decreases the sample was healthy and the new value is the reset 0. -/
theorem c10_amended_constant_write (w : World) (g : GpuRow) (b : Bool)
    (hg : w.gpu = some g) (hgid : g.gpu_id = "gpu-0")
    (hcf : g.consecutive_failures ≤ 1) :
    (health_tick b w).gpu = some { g with
      is_healthy := b
      last_health_check := some w.now
      consecutive_failures := if b then 0 else 1
      updated_at := w.now } ∧
    (∀ g' : GpuRow, (health_tick b w).gpu = some g' →
      g'.consecutive_failures ≤ 1 ∧
      (g'.consecutive_failures < g.consecutive_failures →
        b = true ∧ g'.consecutive_failures = 0)) := by
  have h1 : (health_tick b w).gpu = some { g with
      is_healthy := b
      last_health_check := some w.now
      consecutive_failures := if b then 0 else 1
      updated_at := w.now } := by
    simp [health_tick, update_gpu_status, hg, hgid, applyGpuKwarg]
  refine ⟨h1, ?_⟩
  intro g' hg'
  rw [h1] at hg'
  obtain rfl := ((Option.some.injEq _ _).mp hg').symm
  cases b
  · constructor
    · simp
    · intro hlt
      simp only [if_neg Bool.false_ne_true] at hlt
      omega
  · constructor
    · simp
    · intro hlt
      exact ⟨rfl, by simp⟩

/-- C10 witness: the amended statement applied to a healthy sample over
the zero-counter world. -/
theorem c10_amended_constant_write_witness :
    (health_tick true wH).gpu = some { g0 with
      is_healthy := true
      last_health_check := some wH.now
      consecutive_failures := 0
      updated_at := wH.now } := by
  have h := c10_amended_constant_write wH g0 true rfl rfl (by decide)
  simpa using h.1

end HostAgent
